import Mathlib

/-!
Verification of the transform-and-load pipeline of the ThreatFox ETL connector
(`src/etl_connector.py`) and of the companion URLhaus ETL module
(`src/harsha_urlhaus_etl/etl_connector.py`).

Modelling conventions (shallow embedding of the Python source):
* Python strings are `List Char` (`Str`); `.strip()/.lower()/.title()/.replace`
  are translated to executable list functions below.  `Char.toLower/toUpper`
  cover ASCII, which is the alphabet the connector's classification rules use.
* JSON field values are `JVal` (null, string, integer, or an array of scalar
  atoms — the one nesting level the feed's fields such as `tags` use); an
  absent dictionary key is `Option.none`, so `dict.get(key, default)` is
  `jget`.  A Python operation that raises (e.g. `.strip()` on a non-string)
  is a `none` result in the `Option` monad, and the per-record `try/except`
  of `transform_data` is `Option`-failure of `transformRecord`.
* Python floats never leave the quality/average computations, whose reachable
  values are exact in ℚ; scores are stored as integer hundredths (seven
  increments of 1/7 rounded to 2 decimals) and averages as integer tenths,
  which keeps every definition kernel-computable.  `roundHundredths n d` is
  `round(100 * n/d)` and is related to Mathlib's `round` in the theorems.
* `datetime` values are `PyDateTime`; comparison and subtraction go through
  `toSecs`, the proleptic-Gregorian timeline in seconds, which agrees with
  naive-datetime ordering and `timedelta` arithmetic on valid dates.
  `datetime.now()` is the explicit parameter `Ctx.now`.
* MongoDB state is the list of stored documents; `replace_one(..., upsert)`
  is `replaceOne` (replace the first document with the matching `threat_id`,
  else append).  Index creation has no observable effect on the modelled
  store contents and the theorems start from the empty store.
-/

abbrev Str := List Char

/-- JSON scalar, the element type of array-valued fields such as `tags`. -/
inductive JAtom where
  | anull
  | astr (s : Str)
  | aint (n : Int)
deriving DecidableEq

/-- JSON value of a raw-record field (one nesting level, see the header). -/
inductive JVal where
  | jnull
  | jstr (s : Str)
  | jint (n : Int)
  | jlist (l : List JAtom)
deriving DecidableEq

/-- Python truthiness of a `JVal` (`bool(x)`). -/
def truthy : JVal → Bool
  | .jnull => false
  | .jstr s => !s.isEmpty
  | .jint n => n != 0
  | .jlist l => !l.isEmpty

/-- The value if it is a Python `str`; `none` models the `TypeError` or
`AttributeError` raised when a string method touches a non-string. -/
def asStr : JVal → Option Str
  | .jstr s => some s
  | _ => none

/-- The value if it is a Python `int`; `none` models the `TypeError` raised
when a non-number is compared against an integer. -/
def asInt : JVal → Option Int
  | .jint n => some n
  | _ => none

def isStrV : JVal → Bool
  | .jstr _ => true
  | _ => false

def isIntV : JVal → Bool
  | .jint _ => true
  | _ => false

/-- `dict.get(key, default)`: the stored value when the key is present
(whatever it is, `null` included), the default only when absent. -/
def jget (o : Option JVal) (dflt : JVal) : JVal := o.getD dflt

/-- Present-but-not-a-string field, e.g. a JSON `null` under the key. -/
def presentNonStr (o : Option JVal) : Bool :=
  match o with
  | some v => !(isStrV v)
  | none => false

/-- Python `a or b` on field values (left operand wins when truthy). -/
def pyOr (a b : JVal) : JVal := if truthy a then a else b

def lowerS (s : Str) : Str := s.map Char.toLower

/-- Python `str.strip()` (whitespace from both ends). -/
def stripWs (s : Str) : Str :=
  ((s.dropWhile Char.isWhitespace).reverse.dropWhile Char.isWhitespace).reverse

def listStartsWith : Str → Str → Bool
  | [], _ => true
  | _ :: _, [] => false
  | a :: as, b :: bs => a = b && listStartsWith as bs

/-- Python `needle in hay` substring containment. -/
def containsSub (hay needle : Str) : Bool :=
  match hay with
  | [] => needle.isEmpty
  | _ :: rest => listStartsWith needle hay || containsSub rest needle

/-- One left-to-right pass of Python `s.replace(pat, "")`: every non-overlapping
occurrence of `pat` is removed, scanning resumes after each match.  Structural
fuel recursion (the fuel is the remaining length) keeps it kernel-computable. -/
def removeAllAux (pat : Str) : Nat → Str → Str
  | 0, _ => []
  | _, [] => []
  | fuel + 1, c :: rest =>
    if !pat.isEmpty && listStartsWith pat (c :: rest) then
      removeAllAux pat fuel ((c :: rest).drop pat.length)
    else
      c :: removeAllAux pat fuel rest

def removeAll (pat s : Str) : Str := removeAllAux pat s.length s

/-- Python `str.title()` for the ASCII letters the data uses: a letter after a
non-letter is uppercased, a letter after a letter is lowercased. -/
def titleGo : Bool → Str → Str
  | _, [] => []
  | prevCased, c :: rest =>
    if c.isAlpha then
      (if prevCased then c.toLower else c.toUpper) :: titleGo true rest
    else
      c :: titleGo false rest

def title (s : Str) : Str := titleGo false s

/-- `round(100 * num / den)` computed on integers (`den > 0` at every use
site); equals `⌊100 * num/den + 1/2⌋`, which is Python's `round` on the
reachable inputs (none lies on a half-hundredth tie). -/
def roundHundredths (num den : Int) : Int := Int.fdiv (200 * num + den) (2 * den)

/-- `round(10 * num / den)` on integers, for the 1-decimal confidence mean. -/
def roundTenths (num den : Int) : Int := Int.fdiv (20 * num + den) (2 * den)

structure PyDateTime where
  year : Nat
  month : Nat
  day : Nat
  hour : Nat
  minute : Nat
  second : Nat
deriving DecidableEq

def isDigitC (c : Char) : Bool := 48 ≤ c.toNat && c.toNat ≤ 57

def dVal (c : Char) : Nat := c.toNat - 48

/-- `%Y` of CPython `strptime`: exactly four digits. -/
def parseYear : Str → Option (Nat × Str)
  | a :: b :: c :: d :: rest =>
    if isDigitC a && isDigitC b && isDigitC c && isDigitC d then
      some (dVal a * 1000 + dVal b * 100 + dVal c * 10 + dVal d, rest)
    else none
  | _ => none

/-- `%m`: the ordered regex alternation `1[0-2]|0[1-9]|[1-9]` (backtracking
never helps here because each field is followed by a non-digit literal). -/
def parseMonth : Str → Option (Nat × Str)
  | a :: b :: rest =>
    if isDigitC a = false then none
    else if isDigitC b then
      (if dVal a = 1 ∧ dVal b ≤ 2 then some (10 + dVal b, rest)
       else if dVal a = 0 ∧ 1 ≤ dVal b then some (dVal b, rest)
       else if 1 ≤ dVal a then some (dVal a, b :: rest)
       else none)
    else if 1 ≤ dVal a then some (dVal a, b :: rest)
    else none
  | [a] => if isDigitC a ∧ 1 ≤ dVal a then some (dVal a, []) else none
  | [] => none

/-- `%d`: the ordered alternation `3[01]|[12]\d|0[1-9]|[1-9]`. -/
def parseDay : Str → Option (Nat × Str)
  | a :: b :: rest =>
    if isDigitC a = false then none
    else if isDigitC b then
      (if dVal a = 3 ∧ dVal b ≤ 1 then some (30 + dVal b, rest)
       else if 1 ≤ dVal a ∧ dVal a ≤ 2 then some (10 * dVal a + dVal b, rest)
       else if dVal a = 0 ∧ 1 ≤ dVal b then some (dVal b, rest)
       else if 1 ≤ dVal a then some (dVal a, b :: rest)
       else none)
    else if 1 ≤ dVal a then some (dVal a, b :: rest)
    else none
  | [a] => if isDigitC a ∧ 1 ≤ dVal a then some (dVal a, []) else none
  | [] => none

/-- `%H`: the ordered alternation `2[0-3]|[0-1]\d|\d`. -/
def parseHour : Str → Option (Nat × Str)
  | a :: b :: rest =>
    if isDigitC a = false then none
    else if isDigitC b then
      (if dVal a = 2 ∧ dVal b ≤ 3 then some (20 + dVal b, rest)
       else if dVal a ≤ 1 then some (10 * dVal a + dVal b, rest)
       else some (dVal a, b :: rest))
    else some (dVal a, b :: rest)
  | [a] => if isDigitC a then some (dVal a, []) else none
  | [] => none

/-- `%M` and `%S`: the alternation `[0-5]\d|\d` (CPython's extra `6[0-1]`
alternative for `%S` is rejected later by the `datetime` constructor, so the
outcome is `none` either way). -/
def parseMinSec : Str → Option (Nat × Str)
  | a :: b :: rest =>
    if isDigitC a = false then none
    else if isDigitC b then
      (if dVal a ≤ 5 then some (10 * dVal a + dVal b, rest)
       else some (dVal a, b :: rest))
    else some (dVal a, b :: rest)
  | [a] => if isDigitC a then some (dVal a, []) else none
  | [] => none

def parseLit (ch : Char) : Str → Option Str
  | c :: rest => if c = ch then some rest else none
  | [] => none

/-- A literal space in a `strptime` format matches one or more whitespace
characters. -/
def parseWs : Str → Option Str
  | c :: rest => if c.isWhitespace then some (rest.dropWhile Char.isWhitespace) else none
  | [] => none

def isLeapYear (y : Nat) : Bool := (y % 4 == 0 && y % 100 != 0) || y % 400 == 0

def daysInMonth (y m : Nat) : Nat :=
  if m = 2 then (if isLeapYear y then 29 else 28)
  else if m = 4 ∨ m = 6 ∨ m = 9 ∨ m = 11 then 30
  else 31

/-- `datetime.strptime(s, "%Y-%m-%d %H:%M:%S")`: full-string match plus the
`datetime` constructor's range checks (year ≥ 1, day fits the month). -/
def strptimeFull (s : Str) : Option PyDateTime := do
  let (y, s1) ← parseYear s
  let s2 ← parseLit ('-') s1
  let (mo, s3) ← parseMonth s2
  let s4 ← parseLit ('-') s3
  let (d, s5) ← parseDay s4
  let s6 ← parseWs s5
  let (h, s7) ← parseHour s6
  let s8 ← parseLit (':') s7
  let (mi, s9) ← parseMinSec s8
  let s10 ← parseLit (':') s9
  let (sec, s11) ← parseMinSec s10
  if s11.isEmpty ∧ 1 ≤ y ∧ d ≤ daysInMonth y mo then
    some { year := y, month := mo, day := d, hour := h, minute := mi, second := sec }
  else none

/-- `datetime.strptime(s, "%Y-%m-%d")`. -/
def strptimeDateOnly (s : Str) : Option PyDateTime := do
  let (y, s1) ← parseYear s
  let s2 ← parseLit ('-') s1
  let (mo, s3) ← parseMonth s2
  let s4 ← parseLit ('-') s3
  let (d, s5) ← parseDay s4
  if s5.isEmpty ∧ 1 ≤ y ∧ d ≤ daysInMonth y mo then
    some { year := y, month := mo, day := d, hour := 0, minute := 0, second := 0 }
  else none

/-- The two-format cascade applied to an actual string. -/
def parseDateStr (s : Str) : Option PyDateTime :=
  (strptimeFull s).orElse (fun _ => strptimeDateOnly s)

/-- `_parse_threatfox_date`: a falsy argument returns `None`; a truthy string
goes through the two formats (`ValueError` is caught); a truthy non-string
makes `strptime` raise `TypeError`, which is not caught. -/
def parse_threatfox_date (date_str : JVal) : Option (Option PyDateTime) :=
  if truthy date_str = false then some none
  else match date_str with
    | .jstr s => some (parseDateStr s)
    | _ => none

def daysBeforeMonth (y m : Nat) : Nat :=
  ((List.range (m - 1)).map (fun i => daysInMonth y (i + 1))).foldl (· + ·) 0

/-- Seconds on the proleptic-Gregorian timeline; naive-`datetime` comparison
and `timedelta` arithmetic agree with arithmetic on this value. -/
def toSecs (dt : PyDateTime) : Int :=
  let y1 := dt.year - 1
  let days := 365 * y1 + y1 / 4 - y1 / 100 + y1 / 400 + daysBeforeMonth dt.year dt.month + (dt.day - 1)
  (days : Int) * 86400 + dt.hour * 3600 + dt.minute * 60 + dt.second

/-- `_is_recent_threat`: first seen strictly after `now - 30 days`. -/
def is_recent_threat (now : PyDateTime) (first_seen : Option PyDateTime) : Bool :=
  match first_seen with
  | none => false
  | some d => decide (toSecs now - 30 * 86400 < toSecs d)

/-- `_is_active_threat`: last seen strictly after `now - 7 days`. -/
def is_active_threat (now : PyDateTime) (last_seen : Option PyDateTime) : Bool :=
  match last_seen with
  | none => false
  | some d => decide (toSecs now - 7 * 86400 < toSecs d)

/-- `_days_since_date`: `(now - d).days`, i.e. the floored day difference. -/
def days_since_date (now : PyDateTime) (date_obj : Option PyDateTime) : Option Int :=
  match date_obj with
  | none => none
  | some d => some (Int.fdiv (toSecs now - toSecs d) 86400)

/-- `_categorize_threat_age`. -/
def categorize_threat_age (now : PyDateTime) (first_seen : Option PyDateTime) : Str :=
  match first_seen with
  | none => ("Unknown").data
  | some d =>
    let days_old := Int.fdiv (toSecs now - toSecs d) 86400
    if days_old ≤ 7 then ("New").data
    else if days_old ≤ 30 then ("Recent").data
    else if days_old ≤ 90 then ("Moderate").data
    else ("Old").data

/-- The keyword scan of `_calculate_threat_severity`'s middle band. -/
def keywordHit (threat_type : Str) : Bool :=
  [("botnet").data, ("ransomware").data, ("trojan").data].any
    (fun kw => containsSub (lowerS threat_type) kw)

/-- `_calculate_threat_severity` on well-typed arguments (the `malware`
argument is accepted and ignored, as in the source). -/
def calculate_threat_severity (confidence : Int) (threat_type malware : Str) : Str :=
  if 75 ≤ confidence then ("HIGH").data
  else if 50 ≤ confidence then
    (if keywordHit threat_type then ("HIGH").data else ("MEDIUM").data)
  else if 25 ≤ confidence then ("MEDIUM").data
  else ("LOW").data

/-- `_calculate_threat_severity` on raw field values: the comparison raises on
a non-integer confidence, and `threat_type.lower()` raises on a non-string,
but only when the 50–74 band actually evaluates it. -/
def calculate_threat_severityJ (confidence threat_type malware : JVal) : Option Str :=
  (asInt confidence).bind fun c =>
  if 75 ≤ c then some (("HIGH").data)
  else if 50 ≤ c then
    (asStr threat_type).map fun t =>
      (if keywordHit t then ("HIGH").data else ("MEDIUM").data)
  else if 25 ≤ c then some (("MEDIUM").data)
  else some (("LOW").data)

/-- `_categorize_ioc_type`. -/
def categorize_ioc_type (ioc_type : Str) : Str :=
  let ioc_lower := lowerS ioc_type
  if containsSub ioc_lower (("domain").data) || containsSub ioc_lower (("url").data) then ("NETWORK").data
  else if containsSub ioc_lower (("ip").data) then ("NETWORK").data
  else if containsSub ioc_lower (("hash").data) || containsSub ioc_lower (("md5").data) || containsSub ioc_lower (("sha").data) then ("FILE").data
  else if containsSub ioc_lower (("email").data) then ("EMAIL").data
  else ("OTHER").data

/-- `_clean_malware_name` on an actual string. -/
def clean_malware_nameS (s : Str) : Str :=
  if s.isEmpty then ("Unknown").data
  else
    let cleaned := removeAll (("trojan:").data) (removeAll (("win32:").data) (stripWs s))
    if cleaned.isEmpty then ("Unknown").data else title cleaned

/-- `_clean_malware_name` on a raw value: falsy input short-circuits to
`"Unknown"` before any string method runs; a truthy non-string raises. -/
def clean_malware_name (malware_name : JVal) : Option Str :=
  if truthy malware_name = false then some (("Unknown").data)
  else (asStr malware_name).map clean_malware_nameS

structure ExtractionMeta where
  extracted_at : Option JVal
  source_url : Option JVal
  total_records_in_batch : Option JVal
deriving DecidableEq

/-- A raw ThreatFox feed record: each field of interest is absent or holds an
arbitrary JSON value. -/
structure RawRecord where
  id : Option JVal
  ioc_id : Option JVal
  ioc_value : Option JVal
  ioc_type : Option JVal
  threat_type : Option JVal
  malware : Option JVal
  malware_alias : Option JVal
  malware_printable : Option JVal
  first_seen : Option JVal
  last_seen : Option JVal
  confidence_level : Option JVal
  reference : Option JVal
  reporter : Option JVal
  tags : Option JVal
  extraction_metadata : Option ExtractionMeta
deriving DecidableEq

/-- `_calculate_threat_quality`: seven equally weighted presence checks; the
score is accumulated in units of 1/7 and returned in integer hundredths
(`round(score, 2)`).  The final check compares the raw confidence value
against 0, which raises on a present non-integer. -/
def calculate_threat_quality (threat : RawRecord) : Option Int :=
  let s1 : Int := if truthy (jget threat.id .jnull) then 1 else 0
  let s2 : Int := if truthy (jget threat.ioc_value .jnull) then 1 else 0
  let s3 : Int := if truthy (jget threat.ioc_type .jnull) then 1 else 0
  let s4 : Int := if truthy (jget threat.threat_type .jnull) then 1 else 0
  let s5 : Int := if truthy (jget threat.malware .jnull) then 1 else 0
  let s6 : Int := if truthy (jget threat.first_seen .jnull) then 1 else 0
  (asInt (jget threat.confidence_level (.jint 0))).bind fun c =>
  let s7 : Int := if 0 < c then 1 else 0
  some (roundHundredths (s1 + s2 + s3 + s4 + s5 + s6 + s7) 7)

/-- The seven presence checks of the quality score, in source order, for a
record whose raw confidence value is the integer `c`. -/
def qualityFlags (r : RawRecord) (c : Int) : List Bool :=
  [truthy (jget r.id .jnull), truthy (jget r.ioc_value .jnull),
   truthy (jget r.ioc_type .jnull), truthy (jget r.threat_type .jnull),
   truthy (jget r.malware .jnull), truthy (jget r.first_seen .jnull),
   decide (0 < c)]

structure EtlMeta where
  ingestion_timestamp : PyDateTime
  source : Str
  version : Str
  record_id : JVal
  data_quality_score : Int
deriving DecidableEq

/-- The canonical transformed document, mirroring the dictionary literal of
`transform_data` (`data_quality_score` in hundredths, see the header). -/
structure Doc where
  original_data : RawRecord
  etl_metadata : EtlMeta
  threat_id : JVal
  ioc_id : JVal
  ioc_value : Str
  ioc_type : Str
  threat_type : Str
  malware : Str
  malware_alias : Str
  malware_printable : Str
  first_seen : JVal
  last_seen : JVal
  first_seen_parsed : Option PyDateTime
  last_seen_parsed : Option PyDateTime
  confidence_level : JVal
  reference : Str
  reporter : Str
  tags : List JAtom
  is_recent_threat : Bool
  is_active_threat : Bool
  threat_severity : Str
  ioc_category : Str
  tag_count : Nat
  has_reference : Bool
  malware_family_clean : Str
  days_since_first_seen : Option Int
  days_since_last_seen : Option Int
  threat_age_category : Str
  extraction_timestamp : Option JVal
  source_url : Option JVal
  batch_size : Option JVal
deriving DecidableEq

/-- The per-run context: `current_timestamp` stamped into the metadata and the
`datetime.now()` used by the recency/age helpers. -/
structure Ctx where
  ingestion : PyDateTime
  now : PyDateTime

def emptyExtractionMeta : ExtractionMeta :=
  { extracted_at := none, source_url := none, total_records_in_batch := none }

/-- The body of `transform_data`'s per-record `try` block: `none` exactly when
some step raises and the record is skipped. -/
def transformRecord (ctx : Ctx) (r : RawRecord) : Option Doc :=
  let threat_id := jget r.id (.jstr (("unknown").data))
  let ioc_id := jget r.ioc_id (.jstr (("unknown").data))
  let ioc_value := jget r.ioc_value (.jstr [])
  let ioc_type := jget r.ioc_type (.jstr [])
  let threat_type := jget r.threat_type (.jstr [])
  let malware := jget r.malware (.jstr [])
  let malware_alias := jget r.malware_alias (.jstr [])
  let malware_printable := jget r.malware_printable (.jstr [])
  let first_seen := jget r.first_seen (.jstr [])
  let last_seen := jget r.last_seen (.jstr [])
  let confidence_level := jget r.confidence_level (.jint 0)
  let reference := jget r.reference (.jstr [])
  let reporter := jget r.reporter (.jstr [])
  let tags := jget r.tags (.jlist [])
  (parse_threatfox_date first_seen).bind fun first_seen_parsed =>
  (parse_threatfox_date last_seen).bind fun last_seen_parsed =>
  let is_recent := is_recent_threat ctx.now first_seen_parsed
  let is_active := is_active_threat ctx.now last_seen_parsed
  (calculate_threat_severityJ confidence_level threat_type malware).bind fun threat_severity =>
  (asStr ioc_type).bind fun ioc_type_s =>
  let ioc_category := categorize_ioc_type ioc_type_s
  (calculate_threat_quality r).bind fun quality =>
  (asStr ioc_value).bind fun ioc_value_s =>
  (asStr threat_type).bind fun threat_type_s =>
  (asStr malware).bind fun malware_s =>
  (asStr malware_alias).bind fun malware_alias_s =>
  (asStr malware_printable).bind fun malware_printable_s =>
  (asStr reference).bind fun reference_s =>
  (asStr reporter).bind fun reporter_s =>
  (clean_malware_name (pyOr malware_printable malware)).bind fun malware_clean =>
  some
    { original_data := r
      etl_metadata :=
        { ingestion_timestamp := ctx.ingestion
          source := ("threatfox_json").data
          version := ("1.0").data
          record_id := threat_id
          data_quality_score := quality }
      threat_id := threat_id
      ioc_id := ioc_id
      ioc_value := stripWs ioc_value_s
      ioc_type := stripWs ioc_type_s
      threat_type := stripWs threat_type_s
      malware := stripWs malware_s
      malware_alias := stripWs malware_alias_s
      malware_printable := stripWs malware_printable_s
      first_seen := first_seen
      last_seen := last_seen
      first_seen_parsed := first_seen_parsed
      last_seen_parsed := last_seen_parsed
      confidence_level := confidence_level
      reference := stripWs reference_s
      reporter := stripWs reporter_s
      tags := match tags with | .jlist l => l | _ => []
      is_recent_threat := is_recent
      is_active_threat := is_active
      threat_severity := threat_severity
      ioc_category := ioc_category
      tag_count := match tags with | .jlist l => l.length | _ => 0
      has_reference := !(stripWs reference_s).isEmpty
      malware_family_clean := malware_clean
      days_since_first_seen := days_since_date ctx.now first_seen_parsed
      days_since_last_seen := days_since_date ctx.now last_seen_parsed
      threat_age_category := categorize_threat_age ctx.now first_seen_parsed
      extraction_timestamp := (r.extraction_metadata.getD emptyExtractionMeta).extracted_at
      source_url := (r.extraction_metadata.getD emptyExtractionMeta).source_url
      batch_size := (r.extraction_metadata.getD emptyExtractionMeta).total_records_in_batch }

/-- `transform_data`: per-record transform, skipping records that raise. -/
def transform_data (ctx : Ctx) (raw_data : List RawRecord) : List Doc :=
  raw_data.filterMap (transformRecord ctx)

def strOfJ (v : JVal) : Str :=
  match v with
  | .jstr s => s
  | _ => []

def intOfJ (v : JVal) : Int :=
  match v with
  | .jint n => n
  | _ => 0

/-- Sufficient well-typedness for the transform to succeed: every field a
string method or integer comparison touches has the expected type (absent
fields are fine — the defaults are well-typed). -/
def wellFormed (r : RawRecord) : Bool :=
  isStrV (jget r.ioc_value (.jstr [])) && isStrV (jget r.ioc_type (.jstr [])) &&
  isStrV (jget r.threat_type (.jstr [])) && isStrV (jget r.malware (.jstr [])) &&
  isStrV (jget r.malware_alias (.jstr [])) && isStrV (jget r.malware_printable (.jstr [])) &&
  isStrV (jget r.first_seen (.jstr [])) && isStrV (jget r.last_seen (.jstr [])) &&
  isIntV (jget r.confidence_level (.jint 0)) &&
  isStrV (jget r.reference (.jstr [])) && isStrV (jget r.reporter (.jstr []))

/-- The parsed timestamp of a string-valued field (`parseDateStr` on the
string, the degenerate `none` otherwise). -/
def parseDateStrOpt (v : JVal) : Option PyDateTime :=
  match v with
  | .jstr s => parseDateStr s
  | _ => none

/-- The document a well-formed record transforms to (an evaluation of the
success path of `transformRecord`, proved equal to it in `transform_some`). -/
def mkDoc (ctx : Ctx) (r : RawRecord) : Doc :=
  let threat_id := jget r.id (.jstr (("unknown").data))
  let fsp := parseDateStrOpt (jget r.first_seen (.jstr []))
  let lsp := parseDateStrOpt (jget r.last_seen (.jstr []))
  let tags := jget r.tags (.jlist [])
  let conf := intOfJ (jget r.confidence_level (.jint 0))
  { original_data := r
    etl_metadata :=
      { ingestion_timestamp := ctx.ingestion
        source := ("threatfox_json").data
        version := ("1.0").data
        record_id := threat_id
        data_quality_score := roundHundredths ((qualityFlags r conf).countP (fun b => b)) 7 }
    threat_id := threat_id
    ioc_id := jget r.ioc_id (.jstr (("unknown").data))
    ioc_value := stripWs (strOfJ (jget r.ioc_value (.jstr [])))
    ioc_type := stripWs (strOfJ (jget r.ioc_type (.jstr [])))
    threat_type := stripWs (strOfJ (jget r.threat_type (.jstr [])))
    malware := stripWs (strOfJ (jget r.malware (.jstr [])))
    malware_alias := stripWs (strOfJ (jget r.malware_alias (.jstr [])))
    malware_printable := stripWs (strOfJ (jget r.malware_printable (.jstr [])))
    first_seen := jget r.first_seen (.jstr [])
    last_seen := jget r.last_seen (.jstr [])
    first_seen_parsed := fsp
    last_seen_parsed := lsp
    confidence_level := jget r.confidence_level (.jint 0)
    reference := stripWs (strOfJ (jget r.reference (.jstr [])))
    reporter := stripWs (strOfJ (jget r.reporter (.jstr [])))
    tags := match tags with | .jlist l => l | _ => []
    is_recent_threat := is_recent_threat ctx.now fsp
    is_active_threat := is_active_threat ctx.now lsp
    threat_severity :=
      calculate_threat_severity conf (strOfJ (jget r.threat_type (.jstr []))) []
    ioc_category := categorize_ioc_type (strOfJ (jget r.ioc_type (.jstr [])))
    tag_count := match tags with | .jlist l => l.length | _ => 0
    has_reference := !(stripWs (strOfJ (jget r.reference (.jstr [])))).isEmpty
    malware_family_clean :=
      clean_malware_nameS (strOfJ (pyOr (jget r.malware_printable (.jstr [])) (jget r.malware (.jstr []))))
    days_since_first_seen := days_since_date ctx.now fsp
    days_since_last_seen := days_since_date ctx.now lsp
    threat_age_category := categorize_threat_age ctx.now fsp
    extraction_timestamp := (r.extraction_metadata.getD emptyExtractionMeta).extracted_at
    source_url := (r.extraction_metadata.getD emptyExtractionMeta).source_url
    batch_size := (r.extraction_metadata.getD emptyExtractionMeta).total_records_in_batch }

structure LoadResult where
  store : List Doc
  inserted : Nat
  updated : Nat
  ok : Bool

/-- `collection.replace_one({'threat_id': k}, record, upsert=True)`: replace
the first stored document whose `threat_id` matches, else append.  Returns
(new store, upserted?, modified?); a replacement identical to the existing
document counts as not modified, as MongoDB reports it. -/
def replaceOne (store : List Doc) (record : Doc) : List Doc × Bool × Bool :=
  match store with
  | [] => ([record], true, false)
  | x :: rest =>
    if x.threat_id = record.threat_id then
      (record :: rest, false, if x = record then false else true)
    else
      let r := replaceOne rest record
      (x :: r.1, r.2.1, r.2.2)

/-- The upsert loop of `load_data`, accumulating inserted/updated counts. -/
def loadLoop (store : List Doc) (batch : List Doc) : List Doc × Nat × Nat :=
  match batch with
  | [] => (store, 0, 0)
  | record :: rest =>
    let r1 := replaceOne store record
    let r2 := loadLoop r1.1 rest
    (r2.1, (if r1.2.1 then 1 else 0) + r2.2.1, (if r1.2.2 then 1 else 0) + r2.2.2)

/-- `load_data`: empty input is a no-op success; otherwise every document is
upserted keyed on `threat_id`.  Index creation and collection-level faults
have no observable effect on the modelled store. -/
def load_data (store : List Doc) (transformed_data : List Doc) : LoadResult :=
  if transformed_data.isEmpty then { store := store, inserted := 0, updated := 0, ok := true }
  else
    let r := loadLoop store transformed_data
    { store := r.1, inserted := r.2.1, updated := r.2.2, ok := true }

/-- `run_etl_pipeline`: connect, extract (its outcome is the `raw_data`
parameter — empty on fetch failure), transform, load; each empty stage stops
the run with failure. -/
def run_etl_pipeline (connect_ok : Bool) (ctx : Ctx) (raw_data : List RawRecord) (store : List Doc) : Bool × List Doc :=
  if connect_ok = false then (false, store)
  else if raw_data.isEmpty then (false, store)
  else
    let transformed := transform_data ctx raw_data
    if transformed.isEmpty then (false, store)
    else
      let res := load_data store transformed
      (res.ok, res.store)

/-- A value of the statistics report of `get_pipeline_stats`. -/
inductive StatVal where
  | nat (n : Nat)
  | dt (d : Option PyDateTime)
  | tenths (n : Int)
  | fams (l : List (Str × Nat))
deriving DecidableEq

/-- The ingestion timestamp of a most recently ingested document (`find_one`
sorted descending; with equal timestamps MongoDB picks arbitrarily, but the
returned timestamp value is the maximum either way). -/
def maxIngestion (store : List Doc) : Option PyDateTime :=
  store.foldl
    (fun acc d =>
      match acc with
      | none => some d.etl_metadata.ingestion_timestamp
      | some m =>
        if toSecs m < toSecs d.etl_metadata.ingestion_timestamp then
          some d.etl_metadata.ingestion_timestamp
        else some m)
    none

/-- The `$match confidence_level > 0` stage: numeric comparison matches only
numeric stored values. -/
def positiveConfidences (store : List Doc) : List Int :=
  store.filterMap
    (fun d =>
      match d.confidence_level with
      | .jint n => if 0 < n then some n else none
      | _ => none)

/-- Mean of the positive confidence levels, in integer tenths. -/
def avgConfTenths (store : List Doc) : Int :=
  let cs := positiveConfidences store
  if cs.isEmpty then 0 else roundTenths (cs.foldl (· + ·) 0) cs.length

def bumpCount (l : List (Str × Nat)) (k : Str) : List (Str × Nat) :=
  match l with
  | [] => [(k, 1)]
  | (a, n) :: rest => if a = k then (a, n + 1) :: rest else (a, n) :: bumpCount rest k

def insertByCount (p : Str × Nat) : List (Str × Nat) → List (Str × Nat)
  | [] => [p]
  | q :: rest => if q.2 < p.2 then p :: q :: rest else q :: insertByCount p rest

/-- The top-5 aggregation: group documents by cleaned malware family (the
`Unknown` sentinel excluded), sort by count descending, limit 5.  The source
leaves the order of equal counts unspecified; this model fixes one. -/
def topFamilies (store : List Doc) : List (Str × Nat) :=
  let names := store.filterMap
    (fun d => if d.malware_family_clean = ("Unknown").data then none else some d.malware_family_clean)
  ((names.foldl bumpCount []).foldr insertByCount []).take 5

/-- `get_pipeline_stats`: the report dictionary in insertion order, the three
conditional entries holding their initial defaults when the store is empty. -/
def get_pipeline_stats (store : List Doc) : List (Str × StatVal) :=
  [ (("total_threats").data, .nat store.length),
    (("high_severity_count").data,
      .nat (store.countP (fun d => decide (d.threat_severity = ("HIGH").data)))),
    (("medium_severity_count").data,
      .nat (store.countP (fun d => decide (d.threat_severity = ("MEDIUM").data)))),
    (("active_threats").data, .nat (store.countP (fun d => d.is_active_threat))),
    (("recent_threats").data, .nat (store.countP (fun d => d.is_recent_threat))),
    (("network_iocs").data,
      .nat (store.countP (fun d => decide (d.ioc_category = ("NETWORK").data)))),
    (("file_iocs").data,
      .nat (store.countP (fun d => decide (d.ioc_category = ("FILE").data)))),
    (("latest_ingestion").data, .dt (if store.isEmpty then none else maxIngestion store)),
    (("avg_confidence_level").data, .tenths (if store.isEmpty then 0 else avgConfTenths store)),
    (("top_malware_families").data, .fams (if store.isEmpty then [] else topFamilies store)) ]

namespace Urlhaus

/-- A raw URLhaus feed item (fields of interest). -/
structure URaw where
  id : Option JVal
  url : Option JVal
  threat : Option JVal
  url_status : Option JVal
  date_added : Option JVal
  tags : Option JVal
deriving DecidableEq

/-- A transformed URLhaus document (`item.get(...)` keeps `None` for absent
keys — there is no empty-string defaulting in this module). -/
structure UDoc where
  url_id : Option JVal
  url : Option JVal
  threat : Option JVal
  status : Option JVal
  date_added : Option JVal
  tags : Option JVal
  ingested_at : PyDateTime
deriving DecidableEq

/-- The feed shape: `urls` at the root or nested under `data`. -/
structure UFeed where
  urls : Option (List URaw)
  data_urls : Option (List URaw)

/-- `transform` of the URLhaus module: `data.get("urls") or
data.get("data", {}).get("urls", [])`, then a field-by-field copy. -/
def transform (now : PyDateTime) (data : UFeed) : List UDoc :=
  let urls_data :=
    match data.urls with
    | some l => if l.isEmpty then data.data_urls.getD [] else l
    | none => data.data_urls.getD []
  urls_data.map
    (fun item =>
      { url_id := item.id
        url := item.url
        threat := item.threat
        status := item.url_status
        date_added := item.date_added
        tags := item.tags
        ingested_at := now })

/-- `load` of the URLhaus module: a plain `insert_many` — every document is
appended, nothing is keyed or replaced. -/
def load (store : List UDoc) (data : List UDoc) : List UDoc :=
  if data.isEmpty then store else store ++ data

end Urlhaus

/-- The claim-level keyword condition: one of the three keywords occurs as a
case-insensitive substring of the threat-type text. -/
def severityKeywordProp (threat_type : Str) : Prop :=
  ("botnet").data <:+: lowerS threat_type ∨
  ("ransomware").data <:+: lowerS threat_type ∨
  ("trojan").data <:+: lowerS threat_type

/-- The malware-name cleaning as claim C5 words it: prefer the printable name,
strip the noise prefixes `win32:`/`trojan:` case-insensitively (as prefixes),
title-case, empty maps to `Unknown`. -/
def cleanNameClaim (printable raw : Str) : Str :=
  let chosen := if printable.isEmpty then raw else printable
  let c1 := if listStartsWith (("win32:").data) (lowerS chosen) then chosen.drop 6 else chosen
  let c2 := if listStartsWith (("trojan:").data) (lowerS c1) then c1.drop 7 else c1
  if c2.isEmpty then ("Unknown").data else title c2

/-- The malware-name cleaning as the code has it, on plain strings: prefer the
non-empty printable name, strip surrounding whitespace, remove every
occurrence of the exact lowercase substrings `win32:` then `trojan:`
(case-sensitively, anywhere in the name), title-case, empty maps to
`Unknown`. -/
def cleanNameSpec (printable raw : Str) : Str :=
  let chosen := if printable.isEmpty then raw else printable
  let cleaned := removeAll (("trojan:").data) (removeAll (("win32:").data) (stripWs chosen))
  if cleaned.isEmpty then ("Unknown").data else title cleaned

/-- The first stored document with the given `threat_id`, i.e. the one
`replace_one`'s filter selects. -/
def firstAtKey (store : List Doc) (k : JVal) : Option Doc :=
  match store with
  | [] => none
  | x :: rest => if x.threat_id = k then some x else firstAtKey rest k

def dt0 : PyDateTime := { year := 2026, month := 1, day := 1, hour := 0, minute := 0, second := 0 }

def ctx0 : Ctx := { ingestion := dt0, now := dt0 }

/-- A raw record with every key absent. -/
def emptyRaw : RawRecord :=
  { id := none, ioc_id := none, ioc_value := none, ioc_type := none,
    threat_type := none, malware := none, malware_alias := none,
    malware_printable := none, first_seen := none, last_seen := none,
    confidence_level := none, reference := none, reporter := none,
    tags := none, extraction_metadata := none }

/-- Concrete well-formed record with identifier `a`. -/
def recA : RawRecord :=
  { emptyRaw with
      id := some (.jstr (("a").data))
      ioc_value := some (.jstr (("1.2.3.4:80").data))
      ioc_type := some (.jstr (("ip:port").data))
      threat_type := some (.jstr (("botnet_cc").data))
      malware := some (.jstr (("emotet").data))
      confidence_level := some (.jint 80) }

/-- Concrete well-formed record with identifier `b`. -/
def recB : RawRecord :=
  { emptyRaw with
      id := some (.jstr (("b").data))
      ioc_value := some (.jstr (("evil.example.com").data))
      ioc_type := some (.jstr (("domain").data))
      confidence_level := some (.jint 60) }

/-- Concrete well-formed record lacking an identifier. -/
def recNoId1 : RawRecord :=
  { emptyRaw with ioc_value := some (.jstr (("first.example.com").data)) }

/-- Another well-formed record lacking an identifier, with different content. -/
def recNoId2 : RawRecord :=
  { emptyRaw with ioc_value := some (.jstr (("second.example.com").data)) }

/-- A record whose `ioc_value` key is present but holds JSON `null`. -/
def recNullIoc : RawRecord :=
  { emptyRaw with ioc_value := some .jnull }

/-- A well-formed record whose first-seen string parses under neither date
format. -/
def recBadDate : RawRecord :=
  { emptyRaw with first_seen := some (.jstr (("not-a-date").data)) }

/-- A record exercising the malware-name cleaning on a capitalised prefix. -/
def recWin32 : RawRecord :=
  { emptyRaw with malware_printable := some (.jstr (("Win32:emotet").data)) }

/-- A concrete URLhaus document, as produced by `Urlhaus.transform`. -/
def udoc0 : Urlhaus.UDoc :=
  { url_id := some (.jint 1)
    url := some (.jstr (("http://bad.example.com/x").data))
    threat := some (.jstr (("malware_download").data))
    status := some (.jstr (("online").data))
    date_added := none
    tags := none
    ingested_at := dt0 }

theorem bindNone {α β : Type} {x : Option α} {f : α → Option β} (h : ∀ a, f a = none) :
    x.bind f = none := by
  cases x <;> simp [h]

theorem isStrV_iff {v : JVal} : isStrV v = true ↔ ∃ s, v = .jstr s := by
  cases v <;> simp [isStrV]

theorem isIntV_iff {v : JVal} : isIntV v = true ↔ ∃ n, v = .jint n := by
  cases v <;> simp [isIntV]

theorem asStr_eq_none_of_not_isStrV {v : JVal} (h : isStrV v = false) : asStr v = none := by
  cases v <;> simp_all [isStrV, asStr]

theorem listStartsWith_iff {p s : Str} : listStartsWith p s = true ↔ p <+: s := by
  induction p generalizing s with
  | nil => simp [listStartsWith]
  | cons a as ih =>
    cases s with
    | nil => simp [listStartsWith]
    | cons b bs => simp [listStartsWith, List.cons_prefix_cons, ih]

theorem containsSub_iff {hay needle : Str} : containsSub hay needle = true ↔ needle <:+: hay := by
  induction hay with
  | nil => simp [containsSub, List.infix_nil, List.isEmpty_iff]
  | cons c rest ih => simp [containsSub, List.infix_cons_iff, listStartsWith_iff, ih]

theorem keywordHit_iff {tt : Str} : keywordHit tt = true ↔ severityKeywordProp tt := by
  simp [keywordHit, severityKeywordProp, containsSub_iff]

theorem parse_threatfox_date_jstr (s : Str) :
    parse_threatfox_date (.jstr s) = some (parseDateStr s) := by
  by_cases hs : s = []
  · subst hs ; rfl
  · simp [parse_threatfox_date, truthy, List.isEmpty_iff, hs]

theorem severityJ_eval (c : Int) (t : Str) (mv : JVal) :
    calculate_threat_severityJ (.jint c) (.jstr t) mv
      = some (calculate_threat_severity c t []) := by
  simp only [calculate_threat_severityJ, calculate_threat_severity, asInt, asStr, Option.bind]
  split_ifs <;> simp_all

theorem clean_malware_name_jstr (s : Str) :
    clean_malware_name (.jstr s) = some (clean_malware_nameS s) := by
  by_cases hs : s = []
  · subst hs ; rfl
  · simp [clean_malware_name, clean_malware_nameS, truthy, List.isEmpty_iff, hs, asStr]

theorem pyOr_jstr (p m : Str) :
    pyOr (.jstr p) (.jstr m) = .jstr (if p.isEmpty then m else p) := by
  by_cases hp : p = [] <;> simp [pyOr, truthy, List.isEmpty_iff, hp]

theorem cleanNameS_chosen (p m : Str) :
    clean_malware_nameS (if p.isEmpty then m else p) = cleanNameSpec p m := by
  simp only [cleanNameSpec]
  set ch := if p.isEmpty then m else p with hch
  by_cases hc : ch = []
  · rw [hc] ; rfl
  · simp [clean_malware_nameS, List.isEmpty_iff, hc]

theorem clean_pyOr (p m : Str) :
    clean_malware_name (pyOr (.jstr p) (.jstr m)) = some (cleanNameSpec p m) := by
  rw [pyOr_jstr, clean_malware_name_jstr, cleanNameS_chosen]

theorem sum_ite_countP (b1 b2 b3 b4 b5 b6 b7 : Bool) :
    ((if b1 then (1 : Int) else 0) + (if b2 then (1 : Int) else 0) + (if b3 then (1 : Int) else 0)
      + (if b4 then (1 : Int) else 0) + (if b5 then (1 : Int) else 0) + (if b6 then (1 : Int) else 0)
      + (if b7 then (1 : Int) else 0))
      = (([b1, b2, b3, b4, b5, b6, b7].countP (fun b => b) : Nat) : Int) := by
  cases b1 <;> cases b2 <;> cases b3 <;> cases b4 <;> cases b5 <;> cases b6 <;> cases b7 <;> decide

theorem quality_eval (r : RawRecord) (c : Int)
    (h : jget r.confidence_level (.jint 0) = .jint c) :
    calculate_threat_quality r
      = some (roundHundredths (((qualityFlags r c).countP (fun b => b) : Nat) : Int) 7) := by
  have h7 : (if 0 < c then (1 : Int) else 0) = (if (decide (0 < c) : Bool) then (1 : Int) else 0) := by
    by_cases hc : 0 < c <;> simp [hc]
  simp only [calculate_threat_quality, h, asInt, Option.bind, qualityFlags, h7, sum_ite_countP]

theorem transform_some (ctx : Ctx) (r : RawRecord) (hwf : wellFormed r = true) :
    transformRecord ctx r = some (mkDoc ctx r) := by
  simp only [wellFormed, Bool.and_eq_true] at hwf
  obtain ⟨⟨⟨⟨⟨⟨⟨⟨⟨⟨h1, h2⟩, h3⟩, h4⟩, h5⟩, h6⟩, h7⟩, h8⟩, h9⟩, h10⟩, h11⟩ := hwf
  obtain ⟨siv, hiv⟩ := isStrV_iff.mp h1
  obtain ⟨sit, hit⟩ := isStrV_iff.mp h2
  obtain ⟨stt, htt⟩ := isStrV_iff.mp h3
  obtain ⟨smw, hmw⟩ := isStrV_iff.mp h4
  obtain ⟨sma, hma⟩ := isStrV_iff.mp h5
  obtain ⟨smp, hmp⟩ := isStrV_iff.mp h6
  obtain ⟨sfs, hfs⟩ := isStrV_iff.mp h7
  obtain ⟨sls, hls⟩ := isStrV_iff.mp h8
  obtain ⟨nc, hnc⟩ := isIntV_iff.mp h9
  obtain ⟨srf, hrf⟩ := isStrV_iff.mp h10
  obtain ⟨srp, hrp⟩ := isStrV_iff.mp h11
  simp only [transformRecord, mkDoc, hiv, hit, htt, hmw, hma, hmp, hfs, hls, hnc, hrf, hrp,
    parse_threatfox_date_jstr, severityJ_eval, quality_eval r nc hnc, pyOr_jstr,
    clean_malware_name_jstr, asStr, Option.some_bind, strOfJ, intOfJ, parseDateStrOpt]

theorem transform_data_all_wf (ctx : Ctx) (rs : List RawRecord)
    (hwf : ∀ r ∈ rs, wellFormed r = true) :
    transform_data ctx rs = rs.map (mkDoc ctx) := by
  induction rs with
  | nil => rfl
  | cons r rest ih =>
    have hr := hwf r (by simp)
    have hrest : ∀ x ∈ rest, wellFormed x = true := fun x hx => hwf x (by simp [hx])
    have hih := ih hrest
    simp only [transform_data] at hih ⊢
    simp [List.filterMap_cons, transform_some ctx r hr, hih]

theorem mkDoc_threat_id (ctx : Ctx) (r : RawRecord) :
    (mkDoc ctx r).threat_id = jget r.id (.jstr (("unknown").data)) := rfl

theorem replaceOne_fresh (store : List Doc) (d : Doc)
    (h : d.threat_id ∉ store.map (fun x => x.threat_id)) :
    replaceOne store d = (store ++ [d], true, false) := by
  induction store with
  | nil => rfl
  | cons x rest ih =>
    simp only [List.map_cons, List.mem_cons] at h
    push_neg at h
    obtain ⟨hx, hrest⟩ := h
    have hxne : ¬ x.threat_id = d.threat_id := fun hh => hx hh.symm
    simp [replaceOne, hxne, ih hrest]

theorem loadLoop_fresh_nodup (batch : List Doc) :
    ∀ store : List Doc,
    (batch.map (fun d => d.threat_id)).Nodup →
    (∀ k ∈ batch.map (fun d => d.threat_id), k ∉ store.map (fun x => x.threat_id)) →
    loadLoop store batch = (store ++ batch, batch.length, 0) := by
  induction batch with
  | nil => intro store _ _ ; simp [loadLoop]
  | cons d rest ih =>
    intro store hnd hdisj
    have hd : d.threat_id ∉ store.map (fun x => x.threat_id) :=
      hdisj d.threat_id (by simp)
    have hnd' : (rest.map (fun d => d.threat_id)).Nodup := by
      simp only [List.map_cons, List.nodup_cons] at hnd
      exact hnd.2
    have hdisj' : ∀ k ∈ rest.map (fun d => d.threat_id),
        k ∉ (store ++ [d]).map (fun x => x.threat_id) := by
      intro k hk
      simp only [List.map_append, List.mem_append, List.map_cons, List.map_nil, List.mem_singleton]
      push_neg
      refine ⟨hdisj k (by simp [hk]), ?_⟩
      intro hkd
      simp only [List.map_cons, List.nodup_cons] at hnd
      exact hnd.1 (hkd ▸ hk)
    simp [loadLoop, replaceOne_fresh store d hd, ih (store ++ [d]) hnd' hdisj',
      List.append_assoc]
    omega

theorem replaceOne_present (store : List Doc) (d : Doc)
    (h : firstAtKey store d.threat_id = some d) :
    replaceOne store d = (store, false, false) := by
  induction store with
  | nil => simp [firstAtKey] at h
  | cons x rest ih =>
    by_cases hx : x.threat_id = d.threat_id
    · have : x = d := by
        simp only [firstAtKey, if_pos hx] at h
        exact Option.some.inj h
      subst this
      simp [replaceOne, hx]
    · simp only [firstAtKey, if_neg hx] at h
      simp [replaceOne, hx, ih h]

theorem firstAtKey_self (batch : List Doc)
    (hnd : (batch.map (fun d => d.threat_id)).Nodup) :
    ∀ d ∈ batch, firstAtKey batch d.threat_id = some d := by
  induction batch with
  | nil => intro d hd ; simp at hd
  | cons x rest ih =>
    intro d hd
    simp only [List.map_cons, List.nodup_cons] at hnd
    rcases List.mem_cons.mp hd with hdx | hdr
    · subst hdx ; simp [firstAtKey]
    · have hne : x.threat_id ≠ d.threat_id := by
        intro he
        exact hnd.1 (he ▸ List.mem_map_of_mem (fun d => d.threat_id) hdr)
      simp [firstAtKey, hne, ih hnd.2 d hdr]

theorem loadLoop_noop (batch : List Doc) :
    ∀ store : List Doc,
    (∀ d ∈ batch, firstAtKey store d.threat_id = some d) →
    loadLoop store batch = (store, 0, 0) := by
  induction batch with
  | nil => intro store _ ; rfl
  | cons d rest ih =>
    intro store h
    have hd := h d (by simp)
    have hrest : ∀ x ∈ rest, firstAtKey store x.threat_id = some x :=
      fun x hx => h x (by simp [hx])
    simp [loadLoop, replaceOne_present store d hd, ih store hrest]

theorem filter_length_one_of_nodup (l : List Doc) (k : JVal)
    (hnd : (l.map (fun d => d.threat_id)).Nodup)
    (hk : k ∈ l.map (fun d => d.threat_id)) :
    (l.filter (fun d => decide (d.threat_id = k))).length = 1 := by
  induction l with
  | nil => simp at hk
  | cons x rest ih =>
    simp only [List.map_cons, List.nodup_cons] at hnd
    rcases List.mem_cons.mp hk with hkx | hkr
    · have hxk : x.threat_id = k := hkx.symm
      have hrest : rest.filter (fun d => decide (d.threat_id = k)) = [] := by
        rw [List.filter_eq_nil_iff]
        intro d hd
        simp only [decide_eq_true_eq]
        intro he
        have hmem : x.threat_id ∈ rest.map (fun d => d.threat_id) := by
          rw [hxk, ← he]
          exact List.mem_map_of_mem (fun d => d.threat_id) hd
        exact hnd.1 hmem
      simp [List.filter_cons, hxk, hrest]
    · have hne : x.threat_id ≠ k := by
        intro he
        exact hnd.1 (by rw [he] ; exact hkr)
      simp [List.filter_cons, hne, ih hnd.2 hkr]

theorem loadLoop_same_key (k : JVal) (batch : List Doc) :
    ∀ x : Doc, x.threat_id = k → (∀ d ∈ batch, d.threat_id = k) →
    (loadLoop [x] batch).1 = [batch.getLast?.getD x] := by
  induction batch with
  | nil => intro x _ _ ; rfl
  | cons d rest ih =>
    intro x hx hall
    have hd : d.threat_id = k := hall d (by simp)
    have hrest : ∀ y ∈ rest, y.threat_id = k := fun y hy => hall y (by simp [hy])
    have hrep : replaceOne [x] d = ([d], false, if x = d then false else true) := by
      simp [replaceOne, hx, hd]
    have htail : (d :: rest).getLast?.getD x = rest.getLast?.getD d := by
      cases rest with
      | nil => rfl
      | cons r rs =>
        rw [List.getLast?_cons_cons]
        have hs : (r :: rs).getLast?.isSome := by
          rw [List.getLast?_isSome]
          simp
        obtain ⟨y, hy⟩ := Option.isSome_iff_exists.mp hs
        rw [hy]
        rfl
    simp [loadLoop, hrep, ih d hd hrest, htail]

theorem load_data_same_key (k : JVal) (batch : List Doc) (hne : batch ≠ [])
    (hall : ∀ d ∈ batch, d.threat_id = k) :
    (load_data [] batch).store = batch.getLast?.toList := by
  cases batch with
  | nil => exact absurd rfl hne
  | cons d rest =>
    have hd : d.threat_id = k := hall d (by simp)
    have hrest : ∀ y ∈ rest, y.threat_id = k := fun y hy => hall y (by simp [hy])
    have h1 : replaceOne [] d = ([d], true, false) := rfl
    have h2 := loadLoop_same_key k rest d hd hrest
    have h3 : (d :: rest).getLast?.toList = [rest.getLast?.getD d] := by
      cases rest with
      | nil => rfl
      | cons r rs =>
        rw [List.getLast?_cons_cons]
        have : (r :: rs).getLast?.isSome := by
          rw [List.getLast?_isSome]
          simp
        obtain ⟨y, hy⟩ := Option.isSome_iff_exists.mp this
        simp [hy]
    simp [load_data, loadLoop, h1, h2, h3]

theorem countP_le_of_imp : ∀ {l l' : List Bool},
    List.Forall₂ (fun a b => a = true → b = true) l l' →
    l.countP (fun b => b) ≤ l'.countP (fun b => b) := by
  intro l l' h
  induction h with
  | nil => simp
  | @cons a b l l' hab _ ih =>
    simp only [List.countP_cons]
    cases a with
    | false => cases b <;> simp <;> omega
    | true => rw [hab rfl] ; simp ; omega

theorem qualityFlags_length (r : RawRecord) (c : Int) : (qualityFlags r c).length = 7 := rfl

theorem roundH_eq_round (k : ℕ) (hk : k ≤ 7) :
    ((roundHundredths k 7 : Int) : ℚ) = ((round (((k : ℚ) / 7) * 100) : ℤ) : ℚ) := by
  interval_cases k <;> norm_num [roundHundredths, round_eq] <;> decide

theorem roundH_mono7 (k k' : ℕ) (hk : k ≤ 7) (hk' : k' ≤ 7) (h : k ≤ k') :
    roundHundredths k 7 ≤ roundHundredths k' 7 := by
  interval_cases k <;> interval_cases k' <;> decide

theorem roundH_bounds (k : ℕ) (hk : k ≤ 7) :
    0 ≤ roundHundredths k 7 ∧ roundHundredths k 7 ≤ 100 := by
  interval_cases k <;> decide

theorem asStr_jget_none {o : Option JVal} (h : presentNonStr o = true) :
    asStr (jget o (.jstr [])) = none := by
  cases o with
  | none => simp [presentNonStr] at h
  | some v =>
    simp only [presentNonStr, Bool.not_eq_true'] at h
    simp only [jget, Option.getD_some]
    exact asStr_eq_none_of_not_isStrV h

theorem transform_none_of_badstr (ctx : Ctx) (r : RawRecord)
    (h : (presentNonStr r.ioc_value || presentNonStr r.ioc_type ||
          presentNonStr r.reference || presentNonStr r.reporter) = true) :
    transformRecord ctx r = none := by
  simp only [Bool.or_eq_true] at h
  rcases h with ((h1 | h2) | h3) | h4
  · unfold transformRecord
    apply bindNone ; intro fsp
    apply bindNone ; intro lsp
    apply bindNone ; intro sev
    apply bindNone ; intro its
    apply bindNone ; intro q
    simp [asStr_jget_none h1]
  · unfold transformRecord
    apply bindNone ; intro fsp
    apply bindNone ; intro lsp
    apply bindNone ; intro sev
    simp [asStr_jget_none h2]
  · unfold transformRecord
    apply bindNone ; intro fsp
    apply bindNone ; intro lsp
    apply bindNone ; intro sev
    apply bindNone ; intro its
    apply bindNone ; intro q
    apply bindNone ; intro iv
    apply bindNone ; intro tts
    apply bindNone ; intro mws
    apply bindNone ; intro mas
    apply bindNone ; intro mps
    simp [asStr_jget_none h3]
  · unfold transformRecord
    apply bindNone ; intro fsp
    apply bindNone ; intro lsp
    apply bindNone ; intro sev
    apply bindNone ; intro its
    apply bindNone ; intro q
    apply bindNone ; intro iv
    apply bindNone ; intro tts
    apply bindNone ; intro mws
    apply bindNone ; intro mas
    apply bindNone ; intro mps
    apply bindNone ; intro rfs
    simp [asStr_jget_none h4]

/-- C2: the severity function is total on (confidence, threat-type, malware)
and returns HIGH for confidence ≥ 75; on [50, 75) it returns HIGH exactly when
the threat-type text contains `botnet`, `ransomware`, or `trojan` as a
case-insensitive substring and MEDIUM otherwise; on [25, 50) it returns
MEDIUM; below 25 it returns LOW; and the five concrete evaluations of the
claim hold. -/
theorem C2_severity_spec :
    (∀ c : Int, ∀ tt mw : Str, 75 ≤ c →
      calculate_threat_severity c tt mw = ("HIGH").data) ∧
    (∀ c : Int, ∀ tt mw : Str, 50 ≤ c → c < 75 →
      ((severityKeywordProp tt → calculate_threat_severity c tt mw = ("HIGH").data) ∧
       (¬ severityKeywordProp tt → calculate_threat_severity c tt mw = ("MEDIUM").data))) ∧
    (∀ c : Int, ∀ tt mw : Str, 25 ≤ c → c < 50 →
      calculate_threat_severity c tt mw = ("MEDIUM").data) ∧
    (∀ c : Int, ∀ tt mw : Str, c < 25 →
      calculate_threat_severity c tt mw = ("LOW").data) ∧
    calculate_threat_severity 90 [] [] = ("HIGH").data ∧
    calculate_threat_severity 60 (("ransomware campaign").data) [] = ("HIGH").data ∧
    calculate_threat_severity 60 (("phishing").data) [] = ("MEDIUM").data ∧
    calculate_threat_severity 30 [] [] = ("MEDIUM").data ∧
    calculate_threat_severity 10 [] [] = ("LOW").data := by
  refine ⟨?_, ?_, ?_, ?_, by decide, by decide, by decide, by decide, by decide⟩
  · intro c tt mw hc
    simp [calculate_threat_severity, hc]
  · intro c tt mw hc1 hc2
    have h75 : ¬ 75 ≤ c := by omega
    constructor
    · intro hkw
      have hb : keywordHit tt = true := keywordHit_iff.mpr hkw
      simp [calculate_threat_severity, h75, hc1, hb]
    · intro hkw
      have hb : keywordHit tt = false := by
        cases hb : keywordHit tt
        · rfl
        · exact absurd (keywordHit_iff.mp hb) hkw
      simp [calculate_threat_severity, h75, hc1, hb]
  · intro c tt mw hc1 hc2
    have h75 : ¬ 75 ≤ c := by omega
    have h50 : ¬ 50 ≤ c := by omega
    simp [calculate_threat_severity, h75, h50, hc1]
  · intro c tt mw hc
    have h75 : ¬ 75 ≤ c := by omega
    have h50 : ¬ 50 ≤ c := by omega
    have h25 : ¬ 25 ≤ c := by omega
    simp [calculate_threat_severity, h75, h50, h25]

/-- C2 witness: the middle band instantiated at confidence 60 with a
threat-type containing `ransomware`. -/
theorem C2_witness :
    ((50 : Int) ≤ 60 ∧ (60 : Int) < 75 ∧ severityKeywordProp (("ransomware campaign").data)) ∧
    calculate_threat_severity 60 (("ransomware campaign").data) [] = ("HIGH").data :=
  ⟨⟨by decide, by decide, keywordHit_iff.mp (by decide)⟩,
   (C2_severity_spec.2.1 60 (("ransomware campaign").data) [] (by decide) (by decide)).1
     (keywordHit_iff.mp (by decide))⟩

/-- C4: the IOC category is decided by case-insensitive substring checks in
the fixed order domain/url → NETWORK, ip → NETWORK, hash/md5/sha → FILE,
email → EMAIL, else OTHER, first match winning; with the claim's five
concrete evaluations. -/
theorem C4_ioc_category_spec :
    (∀ t : Str,
      categorize_ioc_type t =
        (if ("domain").data <:+: lowerS t ∨ ("url").data <:+: lowerS t then ("NETWORK").data
         else if ("ip").data <:+: lowerS t then ("NETWORK").data
         else if ("hash").data <:+: lowerS t ∨ ("md5").data <:+: lowerS t ∨ ("sha").data <:+: lowerS t then ("FILE").data
         else if ("email").data <:+: lowerS t then ("EMAIL").data
         else ("OTHER").data)) ∧
    categorize_ioc_type (("domain").data) = ("NETWORK").data ∧
    categorize_ioc_type (("md5_hash").data) = ("FILE").data ∧
    categorize_ioc_type (("email_address").data) = ("EMAIL").data ∧
    categorize_ioc_type (("ip:port").data) = ("NETWORK").data ∧
    categorize_ioc_type [] = ("OTHER").data := by
  refine ⟨?_, by decide, by decide, by decide, by decide, by decide⟩
  intro t
  simp only [categorize_ioc_type, Bool.or_eq_true, containsSub_iff, or_assoc]

/-- C3: every computed quality score is one of the eight values `k/7`
(`k ≤ 7`) rounded to two decimals — the stored integer hundredths divided by
100 equal `round(100 * k/7)/100` — hence lies in [0, 1]; and the score is
monotonically non-decreasing in the seven presence checks: a record
satisfying a superset of the checks never receives a smaller score. -/
theorem C3_quality_range_monotone :
    (∀ r : RawRecord, ∀ q : Int, calculate_threat_quality r = some q →
      (∃ k : ℕ, k ≤ 7 ∧ ((q : ℚ) / 100 = ((round (((k : ℚ) / 7) * 100) : ℤ) : ℚ) / 100)) ∧
      (0 : ℚ) ≤ (q : ℚ) / 100 ∧ (q : ℚ) / 100 ≤ 1) ∧
    (∀ r r' : RawRecord, ∀ c c' q q' : Int,
      jget r.confidence_level (.jint 0) = .jint c →
      jget r'.confidence_level (.jint 0) = .jint c' →
      List.Forall₂ (fun a b => a = true → b = true) (qualityFlags r c) (qualityFlags r' c') →
      calculate_threat_quality r = some q →
      calculate_threat_quality r' = some q' →
      q ≤ q') := by
  constructor
  · intro r q hq
    cases hv : jget r.confidence_level (.jint 0) with
    | jint c =>
      rw [quality_eval r c hv] at hq
      have hqe : q = roundHundredths (((qualityFlags r c).countP (fun b => b) : Nat) : Int) 7 :=
        (Option.some.inj hq).symm
      subst hqe
      have hk7 : (qualityFlags r c).countP (fun b => b) ≤ 7 := by
        have h := List.countP_le_length (fun (b : Bool) => b) (l := qualityFlags r c)
        simpa [qualityFlags_length] using h
      refine ⟨⟨(qualityFlags r c).countP (fun b => b), hk7, ?_⟩, ?_, ?_⟩
      · rw [roundH_eq_round _ hk7]
      · apply div_nonneg _ (by norm_num)
        exact_mod_cast (roundH_bounds _ hk7).1
      · rw [div_le_one (by norm_num)]
        exact_mod_cast (roundH_bounds _ hk7).2
    | jnull => simp [calculate_threat_quality, hv, asInt] at hq
    | jstr s => simp [calculate_threat_quality, hv, asInt] at hq
    | jlist l => simp [calculate_threat_quality, hv, asInt] at hq
  · intro r r' c c' q q' hc hc' hf hq hq'
    rw [quality_eval r c hc] at hq
    rw [quality_eval r' c' hc'] at hq'
    have hqe : q = roundHundredths (((qualityFlags r c).countP (fun b => b) : Nat) : Int) 7 :=
      (Option.some.inj hq).symm
    have hqe' : q' = roundHundredths (((qualityFlags r' c').countP (fun b => b) : Nat) : Int) 7 :=
      (Option.some.inj hq').symm
    subst hqe
    subst hqe'
    have hk : (qualityFlags r c).countP (fun b => b) ≤ 7 := by
      have h := List.countP_le_length (fun (b : Bool) => b) (l := qualityFlags r c)
      simpa [qualityFlags_length] using h
    have hk' : (qualityFlags r' c').countP (fun b => b) ≤ 7 := by
      have h := List.countP_le_length (fun (b : Bool) => b) (l := qualityFlags r' c')
      simpa [qualityFlags_length] using h
    exact roundH_mono7 _ _ hk hk' (countP_le_of_imp hf)

/-- C3 witness: the all-absent record scores 0 hundredths, a record passing
six of the seven checks scores 86; the check sets are nested and the scores
are ordered. -/
theorem C3_witness :
    (jget emptyRaw.confidence_level (.jint 0) = .jint 0 ∧
     jget recA.confidence_level (.jint 0) = .jint 80 ∧
     calculate_threat_quality emptyRaw = some 0 ∧
     calculate_threat_quality recA = some 86) ∧
    (0 : Int) ≤ 86 :=
  ⟨⟨rfl, rfl, by decide, by decide⟩,
   C3_quality_range_monotone.2 emptyRaw recA 0 80 0 86 rfl rfl (by decide) (by decide) (by decide)⟩

/-- C5 counterexample: the code's `str.replace` is case-sensitive and not a
prefix strip, so the printable name `Win32:emotet` keeps its capitalised
prefix (`Win32:Emotet` after title-casing), while the claim's
case-insensitive prefix stripping would yield `Emotet`. -/
theorem C5_counterexample :
    clean_malware_name (.jstr (("Win32:emotet").data)) = some (("Win32:Emotet").data) ∧
    cleanNameClaim (("Win32:emotet").data) [] = ("Emotet").data ∧
    ("Win32:Emotet").data ≠ ("Emotet").data ∧
    (transformRecord ctx0 recWin32).map (fun d => d.malware_family_clean)
      = some (("Win32:Emotet").data) := by
  refine ⟨by decide, by decide, by decide, by decide⟩

/-- C5 amended: the transformer's cleaned malware family name prefers the
truthy (non-empty) printable name over the raw malware name, strips
surrounding whitespace, removes every occurrence of the exact lowercase
substrings `win32:` then `trojan:` (case-sensitively, anywhere in the name,
not only as prefixes), title-cases the remainder, and maps an empty result to
the sentinel `Unknown` (`cleanNameSpec`). -/
theorem C5_clean_malware_name_code_semantics (ctx : Ctx) (r : RawRecord) (d : Doc)
    (hwf : wellFormed r = true) (ht : transformRecord ctx r = some d) :
    ∃ p m : Str, jget r.malware_printable (.jstr []) = .jstr p ∧
      jget r.malware (.jstr []) = .jstr m ∧
      d.malware_family_clean = cleanNameSpec p m := by
  have hd : d = mkDoc ctx r := by
    have h2 := transform_some ctx r hwf
    rw [ht] at h2
    exact Option.some.inj h2
  subst hd
  simp only [wellFormed, Bool.and_eq_true] at hwf
  obtain ⟨⟨⟨⟨⟨⟨⟨⟨⟨⟨h1, h2⟩, h3⟩, h4⟩, h5⟩, h6⟩, h7⟩, h8⟩, h9⟩, h10⟩, h11⟩ := hwf
  obtain ⟨smp, hmp⟩ := isStrV_iff.mp h6
  obtain ⟨smw, hmw⟩ := isStrV_iff.mp h4
  refine ⟨smp, smw, hmp, hmw, ?_⟩
  simp only [mkDoc, hmp, hmw, pyOr_jstr, strOfJ, cleanNameS_chosen]

/-- C5 witness: the amended statement evaluated on the record carrying the
printable name `Win32:emotet`. -/
theorem C5_witness :
    (wellFormed recWin32 = true ∧
     transformRecord ctx0 recWin32 = some (mkDoc ctx0 recWin32)) ∧
    (∃ p m : Str, jget recWin32.malware_printable (.jstr []) = .jstr p ∧
      jget recWin32.malware (.jstr []) = .jstr m ∧
      (mkDoc ctx0 recWin32).malware_family_clean = cleanNameSpec p m) :=
  ⟨⟨by decide, by decide⟩,
   C5_clean_malware_name_code_semantics ctx0 recWin32 (mkDoc ctx0 recWin32)
     (by decide) (by decide)⟩

/-- C6: a well-typed record whose first-seen string parses under neither
`YYYY-MM-DD HH:MM:SS` nor `YYYY-MM-DD` is transformed without error into a
document with a null parsed first-seen, `is_recent_threat = false`, null
days-since-first-seen, and age category `Unknown`. -/
theorem C6_unparseable_date_degrades (ctx : Ctx) (r : RawRecord) (s : Str)
    (hwf : wellFormed r = true)
    (hfs : jget r.first_seen (.jstr []) = .jstr s)
    (h1 : strptimeFull s = none) (h2 : strptimeDateOnly s = none) :
    ∃ d : Doc, transformRecord ctx r = some d ∧
      d.first_seen_parsed = none ∧
      d.is_recent_threat = false ∧
      d.days_since_first_seen = none ∧
      d.threat_age_category = ("Unknown").data := by
  refine ⟨mkDoc ctx r, transform_some ctx r hwf, ?_, ?_, ?_, ?_⟩ <;>
    simp [mkDoc, parseDateStrOpt, hfs, parseDateStr, h1, h2, Option.orElse,
      is_recent_threat, days_since_date, categorize_threat_age]

/-- C6 witness: the record whose first-seen field is `not-a-date`. -/
theorem C6_witness :
    (wellFormed recBadDate = true ∧
     jget recBadDate.first_seen (.jstr []) = .jstr (("not-a-date").data) ∧
     strptimeFull (("not-a-date").data) = none ∧
     strptimeDateOnly (("not-a-date").data) = none) ∧
    (∃ d : Doc, transformRecord ctx0 recBadDate = some d ∧
      d.first_seen_parsed = none ∧
      d.is_recent_threat = false ∧
      d.days_since_first_seen = none ∧
      d.threat_age_category = ("Unknown").data) :=
  ⟨⟨by decide, by decide, by decide, by decide⟩,
   C6_unparseable_date_degrades ctx0 recBadDate (("not-a-date").data)
     (by decide) (by decide) (by decide) (by decide)⟩

/-- C7 counterexample: a non-empty batch whose single record fails to
transform (present non-string `ioc_value`) makes the whole pipeline run
report failure, contradicting the claim that a per-record failure never
causes the run to report failure even when every record of a non-empty batch
fails. -/
theorem C7_counterexample :
    transformRecord ctx0 recNullIoc = none ∧
    ([recNullIoc] : List RawRecord) ≠ [] ∧
    transform_data ctx0 [recNullIoc] = [] ∧
    (run_etl_pipeline true ctx0 [recNullIoc] []).1 = false := by
  refine ⟨by decide, by decide, by decide, by decide⟩

/-- C7 amended: a transform failure on one record drops only that record —
every other record of the batch is still transformed — and never fails the
batch; the run reports failure from transform errors only in the degenerate
case in which they leave zero transformed records, and reports success
whenever at least one record survives. -/
theorem C7_per_record_failure_isolation :
    (∀ ctx : Ctx, ∀ xs ys : List RawRecord, ∀ r : RawRecord,
      transformRecord ctx r = none →
      transform_data ctx (xs ++ r :: ys) = transform_data ctx (xs ++ ys)) ∧
    (∀ ctx : Ctx, ∀ raw : List RawRecord, ∀ store : List Doc,
      raw ≠ [] → transform_data ctx raw ≠ [] →
      (run_etl_pipeline true ctx raw store).1 = true) ∧
    (∀ ctx : Ctx, ∀ raw : List RawRecord, ∀ store : List Doc,
      raw ≠ [] → transform_data ctx raw = [] →
      (run_etl_pipeline true ctx raw store).1 = false) := by
  refine ⟨?_, ?_, ?_⟩
  · intro ctx xs ys r h
    simp [transform_data, List.filterMap_append, List.filterMap_cons, h]
  · intro ctx raw store hraw ht
    simp only [run_etl_pipeline, load_data]
    rw [if_neg (by simp), if_neg (by simp [List.isEmpty_iff, hraw]),
      if_neg (by simp [List.isEmpty_iff, ht])]
    split_ifs <;> rfl
  · intro ctx raw store hraw ht
    simp only [run_etl_pipeline]
    rw [if_neg (by simp), if_neg (by simp [List.isEmpty_iff, hraw]),
      if_pos (by simp [List.isEmpty_iff, ht])]

/-- C7 witness: dropping the broken record between two good ones, and a run
that succeeds when one record survives. -/
theorem C7_witness :
    (transformRecord ctx0 recNullIoc = none ∧
     transform_data ctx0 ([recA] ++ recNullIoc :: [recB]) = transform_data ctx0 ([recA] ++ [recB])) ∧
    (([recA] : List RawRecord) ≠ [] ∧ transform_data ctx0 [recA] ≠ [] ∧
     (run_etl_pipeline true ctx0 [recA] []).1 = true) :=
  ⟨⟨by decide, C7_per_record_failure_isolation.1 ctx0 [recA] [recB] recNullIoc (by decide)⟩,
   ⟨by decide, by decide, C7_per_record_failure_isolation.2.1 ctx0 [recA] [] (by decide) (by decide)⟩⟩

/-- C8 counterexample: even on a concrete store the statistics report has no
entry for the LOW severity tier nor for the EMAIL or OTHER IOC categories —
only HIGH/MEDIUM and NETWORK/FILE are counted (ten fixed keys in total). -/
theorem C8_counterexample :
    List.lookup (("low_severity_count").data) (get_pipeline_stats []) = none ∧
    List.lookup (("email_iocs").data) (get_pipeline_stats []) = none ∧
    List.lookup (("other_iocs").data) (get_pipeline_stats []) = none ∧
    List.lookup (("high_severity_count").data) (get_pipeline_stats []) = some (.nat 0) ∧
    (get_pipeline_stats []).length = 10 := by
  refine ⟨rfl, rfl, rfl, rfl, rfl⟩

/-- C8 amended: for every persisted collection the statistics report contains
document counts for the HIGH and MEDIUM severity tiers and for the NETWORK
and FILE IOC categories (each the number of stored documents carrying that
tier or category), but no count for the LOW tier nor for the EMAIL and OTHER
categories. -/
theorem C8_stats_counts (store : List Doc) :
    List.lookup (("high_severity_count").data) (get_pipeline_stats store)
      = some (.nat (store.countP (fun d => decide (d.threat_severity = ("HIGH").data)))) ∧
    List.lookup (("medium_severity_count").data) (get_pipeline_stats store)
      = some (.nat (store.countP (fun d => decide (d.threat_severity = ("MEDIUM").data)))) ∧
    List.lookup (("network_iocs").data) (get_pipeline_stats store)
      = some (.nat (store.countP (fun d => decide (d.ioc_category = ("NETWORK").data)))) ∧
    List.lookup (("file_iocs").data) (get_pipeline_stats store)
      = some (.nat (store.countP (fun d => decide (d.ioc_category = ("FILE").data)))) ∧
    List.lookup (("low_severity_count").data) (get_pipeline_stats store) = none ∧
    List.lookup (("email_iocs").data) (get_pipeline_stats store) = none ∧
    List.lookup (("other_iocs").data) (get_pipeline_stats store) = none := by
  refine ⟨rfl, rfl, rfl, rfl, rfl, rfl, rfl⟩

theorem replaceOne_filter_ne (store : List Doc) (d : Doc) (k : JVal)
    (hk : ¬ d.threat_id = k) :
    (replaceOne store d).1.filter (fun x => decide (x.threat_id = k))
      = store.filter (fun x => decide (x.threat_id = k)) := by
  induction store with
  | nil => simp [replaceOne, List.filter_cons, hk]
  | cons x rest ih =>
    by_cases hx : x.threat_id = d.threat_id
    · have hx' : ¬ x.threat_id = k := by rw [hx] ; exact hk
      simp only [replaceOne, if_pos hx]
      simp [List.filter_cons, hx', hk]
    · simp only [replaceOne, if_neg hx]
      simp [List.filter_cons, ih]

theorem replaceOne_filter_eq (store : List Doc) (d : Doc)
    (hlen : (store.filter (fun x => decide (x.threat_id = d.threat_id))).length ≤ 1) :
    (replaceOne store d).1.filter (fun x => decide (x.threat_id = d.threat_id)) = [d] := by
  induction store with
  | nil => simp [replaceOne, List.filter_cons]
  | cons x rest ih =>
    by_cases hx : x.threat_id = d.threat_id
    · have hrest : rest.filter (fun x => decide (x.threat_id = d.threat_id)) = [] := by
        rw [List.filter_cons, if_pos (by simp [hx])] at hlen
        simp only [List.length_cons] at hlen
        rw [← List.length_eq_zero]
        omega
      simp [replaceOne, hx, List.filter_cons, hrest]
    · rw [List.filter_cons, if_neg (by simp [hx])] at hlen
      simp [replaceOne, hx, List.filter_cons, ih hlen]

theorem replaceOne_good (store : List Doc) (d : Doc)
    (h : ∀ k, (store.filter (fun x => decide (x.threat_id = k))).length ≤ 1) :
    ∀ k, ((replaceOne store d).1.filter (fun x => decide (x.threat_id = k))).length ≤ 1 := by
  intro k
  by_cases hk : d.threat_id = k
  · subst hk
    rw [replaceOne_filter_eq store d (h _)]
    simp
  · rw [replaceOne_filter_ne store d k hk]
    exact h k

/-- Per-key last-write-wins of the upsert loop: starting from a store holding
at most one document per key, the documents stored under key `k` afterwards
are exactly the last batch document with that key (or the store's, when the
batch has none). -/
theorem loadLoop_filter_key (batch : List Doc) :
    ∀ store : List Doc,
    (∀ k', (store.filter (fun x => decide (x.threat_id = k'))).length ≤ 1) →
    ∀ k : JVal,
    (loadLoop store batch).1.filter (fun x => decide (x.threat_id = k))
      = match (batch.filter (fun d => decide (d.threat_id = k))).getLast? with
        | none => store.filter (fun x => decide (x.threat_id = k))
        | some d => [d] := by
  induction batch with
  | nil => intro store _ k ; rfl
  | cons d rest ih =>
    intro store h k
    have hstep : (loadLoop store (d :: rest)).1 = (loadLoop (replaceOne store d).1 rest).1 := rfl
    have ihh := ih (replaceOne store d).1 (replaceOne_good store d h) k
    rw [hstep, ihh]
    by_cases hk : d.threat_id = k
    · have hfd : (d :: rest).filter (fun x => decide (x.threat_id = k))
          = d :: rest.filter (fun x => decide (x.threat_id = k)) := by
        simp [List.filter_cons, hk]
      have hrepl : (replaceOne store d).1.filter (fun x => decide (x.threat_id = k)) = [d] := by
        subst hk
        exact replaceOne_filter_eq store d (h _)
      rw [hfd]
      cases hrl : (rest.filter (fun x => decide (x.threat_id = k))).getLast? with
      | none =>
        have hemp : rest.filter (fun x => decide (x.threat_id = k)) = [] := by
          rwa [List.getLast?_eq_none_iff] at hrl
        rw [hemp]
        simp [hrepl]
      | some y =>
        cases hrf : rest.filter (fun x => decide (x.threat_id = k)) with
        | nil => rw [hrf] at hrl ; simp at hrl
        | cons z zs =>
          rw [hrf] at hrl
          simp [List.getLast?_cons_cons, hrl]
    · have hfd : (d :: rest).filter (fun x => decide (x.threat_id = k))
          = rest.filter (fun x => decide (x.threat_id = k)) := by
        simp [List.filter_cons, hk]
      rw [hfd, replaceOne_filter_ne store d k hk]

/-- C9: in every batch containing two or more raw records that lack an
identifier (other, identified records may be present — their identifiers are
assumed distinct from the literal `unknown`, and all records well-typed so
none is dropped), each identifier-less record is assigned the literal
threat id `unknown`, and after loading the batch from the empty store exactly
one stored document exists under the key `unknown`: the document derived from
the last such record, the earlier ones silently overwritten. -/
theorem C9_unknown_key_last_such_record (ctx : Ctx) (rs : List RawRecord)
    (h2 : 2 ≤ (rs.filter (fun r => decide (r.id = none))).length)
    (hwf : ∀ r ∈ rs, wellFormed r = true)
    (hno : ∀ r ∈ rs, r.id ≠ some (.jstr (("unknown").data))) :
    (∀ r ∈ rs, r.id = none →
      transformRecord ctx r = some (mkDoc ctx r) ∧
      (mkDoc ctx r).threat_id = .jstr (("unknown").data)) ∧
    (load_data [] (transform_data ctx rs)).store.filter
        (fun d => decide (d.threat_id = .jstr (("unknown").data)))
      = ((rs.filter (fun r => decide (r.id = none))).getLast?.map (mkDoc ctx)).toList ∧
    ((load_data [] (transform_data ctx rs)).store.filter
        (fun d => decide (d.threat_id = .jstr (("unknown").data)))).length = 1 := by
  have htd : transform_data ctx rs = rs.map (mkDoc ctx) := transform_data_all_wf ctx rs hwf
  have hfilter : (rs.map (mkDoc ctx)).filter
        (fun d => decide (d.threat_id = .jstr (("unknown").data)))
      = (rs.filter (fun r => decide (r.id = none))).map (mkDoc ctx) := by
    rw [List.filter_map]
    congr 1
    apply List.filter_congr
    intro r hr
    show decide ((mkDoc ctx r).threat_id = .jstr (("unknown").data)) = decide (r.id = none)
    rw [mkDoc_threat_id]
    cases hid : r.id with
    | none => simp [jget]
    | some v =>
      have hv : v ≠ .jstr (("unknown").data) := by
        intro he
        exact hno r hr (by rw [hid, he])
      simp [jget, hv]
  have hrsne : rs ≠ [] := by
    intro he
    subst he
    simp at h2
  have hempty : (transform_data ctx rs).isEmpty = false := by
    rw [htd]
    cases rs with
    | nil => exact absurd rfl hrsne
    | cons a l => rfl
  have hfne : rs.filter (fun r => decide (r.id = none)) ≠ [] := by
    intro he
    rw [he] at h2
    simp at h2
  obtain ⟨y, hy⟩ := Option.isSome_iff_exists.mp
    (by rw [List.getLast?_isSome] ; exact hfne :
      ((rs.filter (fun r => decide (r.id = none))).getLast?).isSome)
  have hstore : (load_data [] (transform_data ctx rs)).store
      = (loadLoop [] (transform_data ctx rs)).1 := by
    simp [load_data, hempty]
  have hmain := loadLoop_filter_key (transform_data ctx rs) [] (by intro k' ; simp)
    (.jstr (("unknown").data))
  rw [htd, hfilter, List.getLast?_map, hy] at hmain
  refine ⟨?_, ?_, ?_⟩
  · intro r hr hid
    refine ⟨transform_some ctx r (hwf r hr), ?_⟩
    rw [mkDoc_threat_id, hid]
    rfl
  · rw [hstore, htd, hmain, hy]
    rfl
  · rw [hstore, htd, hmain]
    rfl

/-- C9 witness: a mixed batch — records `a` and `b` carry identifiers, two
records lack one; the store keeps exactly one `unknown` document, the one of
the second identifier-less record. -/
theorem C9_witness :
    (2 ≤ (([recA, recNoId1, recB, recNoId2] : List RawRecord).filter
        (fun r => decide (r.id = none))).length ∧
     (∀ r ∈ ([recA, recNoId1, recB, recNoId2] : List RawRecord), wellFormed r = true) ∧
     (∀ r ∈ ([recA, recNoId1, recB, recNoId2] : List RawRecord),
        r.id ≠ some (.jstr (("unknown").data)))) ∧
    ((∀ r ∈ ([recA, recNoId1, recB, recNoId2] : List RawRecord), r.id = none →
        transformRecord ctx0 r = some (mkDoc ctx0 r) ∧
        (mkDoc ctx0 r).threat_id = .jstr (("unknown").data)) ∧
     (load_data [] (transform_data ctx0 [recA, recNoId1, recB, recNoId2])).store.filter
         (fun d => decide (d.threat_id = .jstr (("unknown").data)))
       = ((([recA, recNoId1, recB, recNoId2] : List RawRecord).filter
           (fun r => decide (r.id = none))).getLast?.map (mkDoc ctx0)).toList ∧
     ((load_data [] (transform_data ctx0 [recA, recNoId1, recB, recNoId2])).store.filter
         (fun d => decide (d.threat_id = .jstr (("unknown").data)))).length = 1) :=
  ⟨⟨by decide, by decide, by decide⟩,
   C9_unknown_key_last_such_record ctx0 [recA, recNoId1, recB, recNoId2]
     (by decide) (by decide) (by decide)⟩

/-- C10: a raw record in which one of the string fields `ioc_value`,
`ioc_type`, `reference`, or `reporter` is present with a non-string value is
dropped from the output batch (the per-record derivation raises); the
empty-string default applies only when the key is absent, in which case an
otherwise well-typed record produces a document whose `ioc_value` is the
empty string. -/
theorem C10_present_nonstring_drops_record (ctx : Ctx) (r : RawRecord) :
    (((presentNonStr r.ioc_value || presentNonStr r.ioc_type ||
       presentNonStr r.reference || presentNonStr r.reporter) = true) →
      transformRecord ctx r = none) ∧
    (r.ioc_value = none → wellFormed r = true →
      ∃ d : Doc, transformRecord ctx r = some d ∧ d.ioc_value = []) := by
  constructor
  · exact transform_none_of_badstr ctx r
  · intro hnone hwf
    refine ⟨mkDoc ctx r, transform_some ctx r hwf, ?_⟩
    simp [mkDoc, hnone, jget, strOfJ, stripWs]

/-- C10 witness: a present JSON-null `ioc_value` drops the record; an absent
`ioc_value` key defaults to the empty string. -/
theorem C10_witness :
    ((presentNonStr recNullIoc.ioc_value || presentNonStr recNullIoc.ioc_type ||
      presentNonStr recNullIoc.reference || presentNonStr recNullIoc.reporter) = true ∧
     transformRecord ctx0 recNullIoc = none) ∧
    (emptyRaw.ioc_value = none ∧ wellFormed emptyRaw = true ∧
     ∃ d : Doc, transformRecord ctx0 emptyRaw = some d ∧ d.ioc_value = []) :=
  ⟨⟨by decide, (C10_present_nonstring_drops_record ctx0 recNullIoc).1 (by decide)⟩,
   ⟨rfl, by decide, (C10_present_nonstring_drops_record ctx0 emptyRaw).2 rfl (by decide)⟩⟩

/-- C1 counterexample: (a) a batch of two canonical documents sharing the
degenerate `threat_id` `unknown` but differing in content makes the second
identical load run report 2 updates, not zero; (b) the URLhaus `load` is a
plain `insert_many`, so re-loading the identical one-document batch leaves
two stored documents for the same key. -/
theorem C1_counterexample :
    ((transform_data ctx0 [recNoId1, recNoId2]).length = 2 ∧
     (load_data (load_data [] (transform_data ctx0 [recNoId1, recNoId2])).store
        (transform_data ctx0 [recNoId1, recNoId2])).inserted = 0 ∧
     (load_data (load_data [] (transform_data ctx0 [recNoId1, recNoId2])).store
        (transform_data ctx0 [recNoId1, recNoId2])).updated = 2) ∧
    ((Urlhaus.load (Urlhaus.load [] [udoc0]) [udoc0]).length = 2 ∧
     ∀ u ∈ Urlhaus.load (Urlhaus.load [] [udoc0]) [udoc0], u.url_id = some (.jint 1)) := by
  refine ⟨⟨by decide, by decide, by decide⟩, by decide, by decide⟩

/-- C1 amended: for a batch of canonical documents with pairwise-distinct
`threat_id`s, loading it twice through the ThreatFox loader starting from the
empty store leaves exactly one stored document per distinct `threat_id`, and
the second run reports zero inserted and zero updated.  (Batches with
repeated keys still keep one document per key but report nonzero updates on
re-load, and the URLhaus `insert_many` loader duplicates documents instead —
see the counterexample.) -/
theorem C1_load_idempotent_distinct_keys (batch : List Doc)
    (hnd : (batch.map (fun d => d.threat_id)).Nodup) :
    (load_data (load_data [] batch).store batch).inserted = 0 ∧
    (load_data (load_data [] batch).store batch).updated = 0 ∧
    (∀ k ∈ batch.map (fun d => d.threat_id),
      ((load_data (load_data [] batch).store batch).store.filter
        (fun d => decide (d.threat_id = k))).length = 1) := by
  cases hb : batch with
  | nil => refine ⟨rfl, rfl, ?_⟩ ; intro k hk ; simp at hk
  | cons b bs =>
    rw [← hb]
    have hbne : batch.isEmpty = false := by
      rw [hb] ; rfl
    have hrun1 : loadLoop [] batch = ([] ++ batch, batch.length, 0) :=
      loadLoop_fresh_nodup batch [] hnd (by intro k _ ; simp)
    have hnoop : loadLoop batch batch = (batch, 0, 0) :=
      loadLoop_noop batch batch (firstAtKey_self batch hnd)
    have hins : (load_data (load_data [] batch).store batch).inserted = 0 := by
      simp [load_data, hbne, hrun1, hnoop]
    have hupd : (load_data (load_data [] batch).store batch).updated = 0 := by
      simp [load_data, hbne, hrun1, hnoop]
    have hsto : (load_data (load_data [] batch).store batch).store = batch := by
      simp [load_data, hbne, hrun1, hnoop]
    refine ⟨hins, hupd, ?_⟩
    intro k hk
    rw [hsto]
    exact filter_length_one_of_nodup batch k hnd hk

/-- C1 witness: the two-document batch produced by transforming records `a`
and `b` has distinct keys; re-loading it reports zero inserted and updated
and keeps one document per key. -/
theorem C1_witness :
    ((transform_data ctx0 [recA, recB]).map (fun d => d.threat_id)).Nodup ∧
    ((load_data (load_data [] (transform_data ctx0 [recA, recB])).store
        (transform_data ctx0 [recA, recB])).inserted = 0 ∧
     (load_data (load_data [] (transform_data ctx0 [recA, recB])).store
        (transform_data ctx0 [recA, recB])).updated = 0 ∧
     (∀ k ∈ (transform_data ctx0 [recA, recB]).map (fun d => d.threat_id),
       ((load_data (load_data [] (transform_data ctx0 [recA, recB])).store
          (transform_data ctx0 [recA, recB])).store.filter
         (fun d => decide (d.threat_id = k))).length = 1)) :=
  ⟨by decide,
   C1_load_idempotent_distinct_keys (transform_data ctx0 [recA, recB]) (by decide)⟩
